import Mathlib

/-!
Shallow embedding of the HVAC energy-analysis pipeline from
`src/energy-analysis/analyze-hvac.js`, together with theorems checking the
specification's claims about it.

Modelling conventions:
* JavaScript numbers are modelled as exact rationals (`ℚ`).
* Calendar dates and sub-daily timestamps are modelled as natural numbers
  (epoch day number / sample index); the ISO-8601 strings used by the source
  compare the same way these numbers do, and the JS day-of-week of an epoch
  day `d` is `(d + 4) % 7` (1970-01-01 was a Thursday).
* Fields that a given day may or may not carry in the loosely-typed JS
  objects (weather values, and fields bolted on by later passes) are
  `Option ℚ`; a JS comparison against `undefined` is false, which `oGt`/`oLe`
  implement, and the JS `x || y` falsy-default is `jsOr` (both `undefined`
  and `0` fall through to the default).
* `Math.sqrt` is the one non-rational operation the source uses (for the
  standard deviations).  Functions that consume a standard deviation take it
  as an explicit argument `sd`; theorems that depend on its value relate it
  to the rational variance by the hypotheses `sd * sd = variance` and
  `0 ≤ sd`, which characterise the real square root exactly.
* External fetches: the sub-daily Tesla series for a date is an explicit
  argument `series : Nat → List TsEntry` (the source fetches with
  `end_date = date + 1 day` to obtain that date's intervals).  A failed or
  empty fetch and a fetch returning no `time_series` both leave the day
  untouched, which is the behaviour of passing an empty list.
-/

/-- JS `a || b` for a possibly-undefined number `a`: both `undefined` and `0`
(the falsy values that can occur here) fall through to the default `b`.
Used at `analyze-hvac.js:334` (`weather.tempMean || 50`) and for the wind
fields (`d.windMax || 0`, etc.). -/
def jsOr (a : Option ℚ) (b : ℚ) : ℚ :=
  match a with
  | none => b
  | some v => if v = 0 then b else v

/-- JS `x > c` where `x` may be `undefined` (in which case the comparison is
false). -/
def oGt (a : Option ℚ) (c : ℚ) : Bool :=
  match a with
  | none => false
  | some v => c < v

/-- JS `x <= c` where `x` may be `undefined` (in which case the comparison is
false). -/
def oLe (a : Option ℚ) (c : ℚ) : Bool :=
  match a with
  | none => false
  | some v => v ≤ c

/-- Arithmetic mean of a list of rationals, written as the source writes it:
`reduce((a,b) => a+b, 0) / length` (division by zero yields 0 in `ℚ`, and the
source only divides by nonzero lengths). -/
def meanQ (l : List ℚ) : ℚ := l.foldl (· + ·) 0 / (l.length : ℚ)

/-- Population variance as the source computes it (the quantity inside
`Math.sqrt` at `analyze-hvac.js:384` and `:720`):
`reduce((a,b) => a + (b-mean)**2, 0) / length`. -/
def varQ (l : List ℚ) : ℚ :=
  l.foldl (fun a b => a + (b - meanQ l) * (b - meanQ l)) 0 / (l.length : ℚ)

/-- Singularity epsilon of the Gaussian elimination (`analyze-hvac.js:656`). -/
def pivotEps : ℚ := 1 / 10 ^ 10

/-- Day-of-week of an epoch day, matching JS `Date.getDay` (0 = Sunday). -/
def dayOfWeek (d : Nat) : Nat := (d + 4) % 7

/-- Epoch day of `OUT_OF_TOWN_START = '2025-12-13'`. -/
def outOfTownStart : Nat := 20435

/-- Epoch day of `OUT_OF_TOWN_END = '2026-01-02'`. -/
def outOfTownEnd : Nat := 20455

/-- Epoch day of `HOME_DURING_VACATION = '2025-12-27'`. -/
def homeDuringVacation : Nat := 20449

/-- `isOutOfTown` (`analyze-hvac.js:302-305`): inside the vacation window,
except for the one date the occupants were home. -/
def isOutOfTown (date : Nat) : Bool :=
  if date = homeDuringVacation then false
  else decide (outOfTownStart ≤ date) && decide (date ≤ outOfTownEnd)

/-- Day classification labels used by the source
(the spec's `normal` / `away` / `high-load`). -/
inductive DayType
  | normal
  | outOfTown
  | sauna
deriving DecidableEq, Repr

/-- One aggregated daily energy record (output of step 1, all energies in
watt-hours). -/
structure TeslaDaily where
  date : Nat
  homeEnergy : ℚ := 0
  solarEnergy : ℚ := 0
  gridImported : ℚ := 0
  gridExported : ℚ := 0
  batteryCharged : ℚ := 0
  batteryDischarged : ℚ := 0
  intervalCount : Nat := 0
deriving DecidableEq, Repr

/-- One daily weather record (step 2). -/
structure Weather where
  date : Nat
  tempMax : ℚ := 0
  tempMin : ℚ := 0
  tempMean : ℚ := 0
  windMax : ℚ := 0
  windGustMax : ℚ := 0
deriving DecidableEq, Repr

/-- A classified day (step 3 output, progressively enriched by later passes;
the enrichment fields start out absent, i.e. `none`). -/
structure ClassifiedDay where
  date : Nat
  type : DayType := .normal
  homeKwh : ℚ := 0
  solarKwh : ℚ := 0
  gridImportKwh : ℚ := 0
  gridExportKwh : ℚ := 0
  batteryChargedKwh : ℚ := 0
  batteryDischargedKwh : ℚ := 0
  saunaEstimateKwh : ℚ := 0
  adjustedKwh : ℚ := 0
  tempMax : Option ℚ := none
  tempMin : Option ℚ := none
  tempMean : Option ℚ := none
  windMax : Option ℚ := none
  windGustMax : Option ℚ := none
  hdd : ℚ := 0
  saunaDetected : Bool := false
  heatingDegreeDays : Option ℚ := none
  priorDayTempMin : Option ℚ := none
  thermalMassLag : Option ℚ := none
  isWeekend : Option ℚ := none
  expectedKwh : Option ℚ := none
  residualKwh : Option ℚ := none
  zScore : Option ℚ := none
deriving DecidableEq, Repr

/-- `classifyDays` body for one day (`analyze-hvac.js:331-360`).  The weather
map lookup is a search by date (`weatherMap.get(day.date) || {}`), and
`historySaunaDays` is the set of sauna dates read from `history.json`. -/
def classifyDay (wd : List Weather) (historySaunaDays : List Nat)
    (day : TeslaDaily) : ClassifiedDay :=
  let w := wd.find? (fun x => x.date = day.date)
  let homeKwh := day.homeEnergy / 1000
  let hdd : ℚ := max 0 (65 - jsOr (w.map (·.tempMean)) 50)
  let t : DayType :=
    if isOutOfTown day.date then .outOfTown
    else if historySaunaDays.contains day.date then .sauna
    else .normal
  let est : ℚ :=
    if isOutOfTown day.date then 0
    else if historySaunaDays.contains day.date then 25
    else 0
  { date := day.date
    type := t
    homeKwh := homeKwh
    solarKwh := day.solarEnergy / 1000
    gridImportKwh := day.gridImported / 1000
    gridExportKwh := day.gridExported / 1000
    batteryChargedKwh := day.batteryCharged / 1000
    batteryDischargedKwh := day.batteryDischarged / 1000
    saunaEstimateKwh := est
    adjustedKwh := homeKwh - est
    tempMax := w.map (·.tempMax)
    tempMin := w.map (·.tempMin)
    tempMean := w.map (·.tempMean)
    windMax := w.map (·.windMax)
    windGustMax := w.map (·.windGustMax)
    hdd := hdd }

/-- Step 3, `classifyDays` (`analyze-hvac.js:307-367`). -/
def classifyDays (teslaDaily : List TeslaDaily) (weatherDaily : List Weather)
    (historySaunaDays : List Nat) : List ClassifiedDay :=
  teslaDaily.map (classifyDay weatherDaily historySaunaDays)

/-- One sub-daily (5-minute) telemetry interval. -/
structure TsEntry where
  timestamp : Nat
  home_energy : ℚ := 0
  solar_energy : ℚ := 0
deriving DecidableEq, Repr

/-- Result of the consecutive-run scan: length of the longest run of
high-power intervals and the summed energy of that run. -/
structure RunStats where
  maxLength : Nat
  totalWh : ℚ
deriving DecidableEq, Repr

/-- `findConsecutiveRuns` (`analyze-hvac.js:432-455`): walk the interval list
in order, counting consecutive entries whose timestamp is in the high-power
set; a non-member resets the run.  `totalWh` tracks the energy of the run
that last extended the maximum. -/
def findConsecutiveRuns (highPowerIntervals : List TsEntry)
    (allIntervals : List TsEntry) : RunStats :=
  let highSet := highPowerIntervals.map (·.timestamp)
  let st := allIntervals.foldl
    (fun (st : Nat × Nat × ℚ × ℚ) entry =>
      let (maxLength, currentLength, totalWh, runWh) := st
      if highSet.contains entry.timestamp then
        let currentLength := currentLength + 1
        let runWh := runWh + entry.home_energy
        if maxLength < currentLength then (currentLength, currentLength, runWh, runWh)
        else (maxLength, currentLength, totalWh, runWh)
      else (maxLength, 0, totalWh, 0))
    (0, 0, 0, 0)
  ⟨st.1, st.2.2.1⟩

/-- The per-day refinement applied to a suspect day inside
`detectSaunaFromTesla` (`analyze-hvac.js:403-423`): filter the day's series
for intervals above the 1000 Wh high-power threshold, find the longest
consecutive run, and if it reaches the minimum length of 10 samples,
reclassify the day as a sauna day with the run's energy as the estimate. -/
def refineDay (s : List TsEntry) (d : ClassifiedDay) : ClassifiedDay :=
  let highPowerIntervals := s.filter (fun e => 1000 < e.home_energy)
  let consecutiveRuns := findConsecutiveRuns highPowerIntervals s
  if 10 ≤ consecutiveRuns.maxLength then
    { d with
      type := .sauna
      saunaEstimateKwh := consecutiveRuns.totalWh / 1000
      adjustedKwh := d.homeKwh - consecutiveRuns.totalWh / 1000
      saunaDetected := true }
  else d

/-- Update the first element satisfying `p` (the `findIndex` + single-index
assignment at `analyze-hvac.js:413-419`). -/
def updateFirst (p : α → Bool) (f : α → α) : List α → List α
  | [] => []
  | x :: xs => if p x then f x :: xs else x :: updateFirst p f xs

/-- Step 3b, `detectSaunaFromTesla` (`analyze-hvac.js:373-430`).  `series`
gives each date's 5-minute intervals and `sd` is the standard deviation
`Math.sqrt(variance)` of normal-day consumption (see the header note on
square roots).  Suspect days — normal days whose consumption exceeds
`max(mean + 1.5*stddev, 50)` — are re-examined and possibly reclassified in
place in the classified-day list. -/
def detectSaunaFromTesla (classifiedDays : List ClassifiedDay)
    (series : Nat → List TsEntry) (sd : ℚ) : List ClassifiedDay :=
  let normalDays := classifiedDays.filter (fun d => d.type = .normal)
  if normalDays.length = 0 then classifiedDays
  else
    let consumptions := normalDays.map (·.homeKwh)
    let mean := meanQ consumptions
    let threshold := mean + 3 / 2 * sd
    let suspectDays := normalDays.filter (fun d => max threshold 50 < d.homeKwh)
    suspectDays.foldl
      (fun ds suspect =>
        updateFirst (fun d => d.date = suspect.date)
          (refineDay (series suspect.date)) ds)
      classifiedDays

/-- Names of the regression features (the keys of the source's `coefficients`
object, plus the intercept). -/
inductive FeatName
  | tempMin
  | windMax
  | thermalMassLag
  | hdd
  | windGustMax
  | priorDayTempMin
  | isWeekend
  | intercept
deriving DecidableEq, Repr

/-- The feature getters of `analyze-hvac.js:516-539`.  Fields that the JS
code reads directly (and that are always present on the fitted days, thanks
to the `tempMin !== undefined` filter and the enrichment pass) are read with
a default of 0; the wind fields use the source's `|| 0`. -/
def featGet : FeatName → ClassifiedDay → ℚ
  | .tempMin, d => d.tempMin.getD 0
  | .windMax, d => jsOr d.windMax 0
  | .thermalMassLag, d => d.thermalMassLag.getD 0
  | .hdd, d => d.heatingDegreeDays.getD 0
  | .windGustMax, d => jsOr d.windGustMax 0
  | .priorDayTempMin, d => d.priorDayTempMin.getD 0
  | .isWeekend, d => d.isWeekend.getD 0
  | .intercept, _ => 1

/-- `basicFeatures` (`analyze-hvac.js:516`). -/
def basicFeatures : List FeatName := [.tempMin, .windMax]

/-- `extendedFeatures` (`analyze-hvac.js:520`). -/
def extendedFeatures : List FeatName := [.tempMin, .windMax, .thermalMassLag]

/-- `hddFeatures` (`analyze-hvac.js:525`). -/
def hddFeatures : List FeatName := [.hdd, .windMax]

/-- `priorDayFeatures` (`analyze-hvac.js:529`). -/
def priorDayFeatures : List FeatName := [.tempMin, .windGustMax, .priorDayTempMin]

/-- `weekendFeatures` (`analyze-hvac.js:534`). -/
def weekendFeatures : List FeatName :=
  [.tempMin, .windGustMax, .priorDayTempMin, .isWeekend]

/-- One design-matrix row: the feature values followed by the constant 1 for
the intercept (`analyze-hvac.js:600`). -/
def designRow (features : List FeatName) (d : ClassifiedDay) : List ℚ :=
  features.map (featGet · d) ++ [1]

/-- Entry `(i, j)` read from a rational matrix stored as rows. -/
def matGet (M : List (List ℚ)) (i j : Nat) : ℚ := (M.getD i []).getD j 0

/-- The normal-equations matrix `XᵗX` (`analyze-hvac.js:604-614`). -/
def normalXtX (days : List ClassifiedDay) (features : List FeatName) :
    List (List ℚ) :=
  let p := features.length + 1
  (List.range p).map fun j =>
    (List.range p).map fun k =>
      days.foldl
        (fun s d => s + (designRow features d).getD j 0 * (designRow features d).getD k 0)
        0

/-- The normal-equations right-hand side `Xᵗy` with `y = adjustedKwh`
(`analyze-hvac.js:601-609`). -/
def normalXty (days : List ClassifiedDay) (features : List FeatName) : List ℚ :=
  let p := features.length + 1
  (List.range p).map fun j =>
    days.foldl
      (fun s d => s + (designRow features d).getD j 0 * d.adjustedKwh)
      0

/-- Partial-pivot search of `solveLinearSystem` (`analyze-hvac.js:650-653`):
the first row at or below `col` whose entry in column `col` has the strictly
largest magnitude. -/
def pivotSearch (M : List (List ℚ)) (col n : Nat) : Nat :=
  ((List.range n).drop (col + 1)).foldl
    (fun maxRow row =>
      if |matGet M maxRow col| < |matGet M row col| then row else maxRow)
    col

/-- Swap two rows of a matrix (`analyze-hvac.js:654`). -/
def swapRows (M : List (List ℚ)) (i j : Nat) : List (List ℚ) :=
  let ri := M.getD i []
  let rj := M.getD j []
  (M.set i rj).set j ri

/-- One column step of the forward elimination (`analyze-hvac.js:649-664`):
pivot, singularity check against `1e-10`, and elimination of the rows below. -/
def elimStep (n : Nat) (M : List (List ℚ)) (col : Nat) :
    Option (List (List ℚ)) :=
  let M1 := swapRows M col (pivotSearch M col n)
  if |matGet M1 col col| < pivotEps then none
  else
    some <| M1.enum.map fun (row, r) =>
      if col < row ∧ row < n then
        let factor := matGet M1 row col / matGet M1 col col
        r.enum.map fun (j, v) =>
          if col ≤ j then v - factor * matGet M1 col j else v
      else r

/-- Back substitution (`analyze-hvac.js:666-675`) on the triangularised
augmented matrix: builds `x` from the last unknown upward. -/
def backSub (M : List (List ℚ)) (n : Nat) : List ℚ :=
  (List.range n).foldr
    (fun i acc =>
      let row := M.getD i []
      let s := ((row.drop (i + 1)).zip acc).foldl (fun a p => a + p.1 * p.2) 0
      (row.getD n 0 - s) / row.getD i 0 :: acc)
    []

/-- `solveLinearSystem` (`analyze-hvac.js:645-676`): Gaussian elimination
with partial pivoting on the augmented matrix; `none` when a pivot magnitude
falls below `1e-10` (singular system). -/
def solveLinearSystem (A : List (List ℚ)) (b : List ℚ) (n : Nat) :
    Option (List ℚ) :=
  let M := (A.zip b).map fun rb => rb.1 ++ [rb.2]
  ((List.range n).foldl (fun acc col => acc.bind (elimStep n · col)) (some M)).map
    (backSub · n)

/-- A fitted regression model (`RegressionModel` of the spec): named
coefficients, R², and the legacy `a`/`b`/`c` slots kept for the two-feature
segment models.  `useMean` marks a constant fallback segment model. -/
structure RegModel where
  coefficients : List (FeatName × ℚ) := []
  rSquared : ℚ := 0
  a : ℚ := 0
  b : ℚ := 0
  c : ℚ := 0
  useMean : Bool := false
deriving DecidableEq, Repr

/-- Coefficient lookup in the named-coefficients association list (a JS
object property read; `none` is `undefined`). -/
def coeffLookup (cs : List (FeatName × ℚ)) (f : FeatName) : Option ℚ :=
  (cs.find? (fun fc => fc.1 = f)).map (·.2)

/-- The degenerate result `{ coefficients: {}, rSquared: 0, a: 0, b: 0, c: 0 }`
returned by `fitLinearRegression` when there are too few rows or the normal
equations are singular (`analyze-hvac.js:597` and `:617`). -/
def degenerateFit : RegModel := {}

/-- Dot product of two rational vectors. -/
def dotQ (xs ys : List ℚ) : ℚ := (xs.zip ys).foldl (fun a p => a + p.1 * p.2) 0

/-- `fitLinearRegression` (`analyze-hvac.js:584-643`): multiple linear
regression by the normal-equations method, with R² computed as
`1 - SSres/SStot` (0 when the target has no variance). -/
def fitLinearRegression (days : List ClassifiedDay) (features : List FeatName) :
    RegModel :=
  let n := days.length
  let p := features.length + 1
  if n < p + 1 then degenerateFit
  else
    match solveLinearSystem (normalXtX days features) (normalXty days features) p with
    | none => degenerateFit
    | some beta =>
      let y := days.map (·.adjustedKwh)
      let yMean := meanQ y
      let ssRes := days.foldl
        (fun s d =>
          let predicted := dotQ beta (designRow features d)
          s + (d.adjustedKwh - predicted) * (d.adjustedKwh - predicted))
        0
      let ssTot := y.foldl (fun s v => s + (v - yMean) * (v - yMean)) 0
      let rSquared := if 0 < ssTot then 1 - ssRes / ssTot else 0
      { coefficients := features.zip beta ++ [(.intercept, beta.getD (p - 1) 0)]
        rSquared := rSquared
        a := beta.getD 0 0
        b := beta.getD 1 0
        c := beta.getD (p - 1) 0 }

/-- The four temperature-range buckets of the segmented model
(`analyze-hvac.js:499-504`). -/
inductive SegKind
  | mild
  | moderate
  | cold
  | extreme
deriving DecidableEq, Repr

/-- The segment filters (`analyze-hvac.js:500-503`), literally the JS
comparisons on `d.tempMin` (false when `tempMin` is `undefined`). -/
def segFilter : SegKind → ClassifiedDay → Bool
  | .mild, d => oGt d.tempMin 32
  | .moderate, d => oGt d.tempMin 20 && oLe d.tempMin 32
  | .cold, d => oGt d.tempMin 5 && oLe d.tempMin 20
  | .extreme, d => oLe d.tempMin 5

/-- The segments in their source order. -/
def segKinds : List SegKind := [.mild, .moderate, .cold, .extreme]

/-- The segment a day is pushed into: the first whose filter matches
(the `break` in the loop at `analyze-hvac.js:506-513`). -/
def segAssign (d : ClassifiedDay) : Option SegKind :=
  segKinds.find? (fun k => segFilter k d)

/-- The days collected into segment `k`, in input order. -/
def segDays (k : SegKind) (nd : List ClassifiedDay) : List ClassifiedDay :=
  nd.filter (fun d => segAssign d = some k)

/-- Mean `adjustedKwh` of a list of days, 0 when empty
(`analyze-hvac.js:548-550`). -/
def segMean (l : List ClassifiedDay) : ℚ :=
  if 0 < l.length then l.foldl (fun a d => a + d.adjustedKwh) 0 / (l.length : ℚ)
  else 0

/-- The constant fallback model for a segment with fewer than 4 days
(`analyze-hvac.js:551`). -/
def meanModel (l : List ClassifiedDay) : RegModel :=
  { coefficients := [(.intercept, segMean l)]
    c := segMean l
    useMean := true }

/-- A segment together with its fitted (or fallback) model. -/
structure Segment where
  kind : SegKind
  days : List ClassifiedDay
  model : RegModel
deriving DecidableEq, Repr

/-- Fit one segment (`analyze-hvac.js:542-553`): a basic-features regression
when the segment has at least 4 days, otherwise the segment-mean constant. -/
def segModelFor (nd : List ClassifiedDay) (k : SegKind) : RegModel :=
  let l := segDays k nd
  if 4 ≤ l.length then fitLinearRegression l basicFeatures else meanModel l

/-- All four segments with their models, over the (enriched) normal days. -/
def segmentsOf (nd : List ClassifiedDay) : List Segment :=
  segKinds.map fun k => ⟨k, segDays k nd, segModelFor nd k⟩

/-- The day filter of the model builder, anomaly detector and benchmark
(`analyze-hvac.js:464-466`, `:707-709`, `:911-913`):
`type === 'normal' && tempMin !== undefined && homeKwh > 0`. -/
def isModelDay (d : ClassifiedDay) : Bool :=
  d.type = .normal && d.tempMin.isSome && 0 < d.homeKwh

/-- The computed-feature enrichment of one normal day
(`analyze-hvac.js:474-496`): heating degree days, prior-normal-day minimum
temperature, 3-day trailing mean temperature, and the weekend indicator.
`nl` is the filtered normal-day list and `i` the day's index in it (the
enrichment only writes fields no other pass reads back, so reading
neighbours from the un-enriched list is equivalent to the source's in-place
traversal). -/
def enrichDay (nl : List ClassifiedDay) (i : Nat) (d : ClassifiedDay) :
    ClassifiedDay :=
  { d with
    heatingDegreeDays := some (max 0 (65 - d.tempMean.getD 0))
    priorDayTempMin := some
      (if 1 ≤ i then (nl.getD (i - 1) d).tempMin.getD 0 else d.tempMin.getD 0)
    thermalMassLag := some
      (if 2 ≤ i then
        (d.tempMean.getD 0 + (nl.getD (i - 1) d).tempMean.getD 0
          + (nl.getD (i - 2) d).tempMean.getD 0) / 3
      else d.tempMean.getD 0)
    isWeekend := some
      (if dayOfWeek d.date = 0 ∨ dayOfWeek d.date = 6 then 1 else 0) }

/-- The enriched normal-day list (the state of `normalDays` after the loop at
`analyze-hvac.js:474-496`). -/
def enrichList (nd0 : List ClassifiedDay) : List ClassifiedDay :=
  nd0.enum.map fun id => enrichDay nd0 id.1 id.2

/-- How many model days occur strictly before position `k` — the index a
day at position `k` has in the filtered normal-day list. -/
def modelDayCount (days : List ClassifiedDay) (k : Nat) : Nat :=
  ((days.take k).filter isModelDay).length

/-- The in-place effect of `buildModel`'s enrichment loop on the full
classified-day list: every model day is replaced by its enriched version
(the JS mutates the shared day objects through the `normalDays` aliases). -/
def writeBack (days : List ClassifiedDay) : List ClassifiedDay :=
  let nd0 := days.filter isModelDay
  days.enum.map fun kd =>
    if isModelDay kd.2 then enrichDay nd0 (modelDayCount days kd.1) kd.2 else kd.2

/-- The five competing global models (`analyze-hvac.js:556-575`), fitted on
the same normal-day sample. -/
def globalCandidates (nd : List ClassifiedDay) : List RegModel :=
  [fitLinearRegression nd basicFeatures,
   fitLinearRegression nd extendedFeatures,
   fitLinearRegression nd hddFeatures,
   fitLinearRegression nd priorDayFeatures,
   fitLinearRegression nd weekendFeatures]

/-- The competition winner (`analyze-hvac.js:569-578`): sort the candidates
by descending R² (the JS comparator `b.rSquared - a.rSquared`) and take the
first. -/
def selectGlobal (nd : List ClassifiedDay) : RegModel :=
  ((globalCandidates nd).mergeSort fun x y => y.rSquared ≤ x.rSquared).headD
    degenerateFit

/-- The model builder's structured result (`{ segments, globalModel,
normalDays }`). -/
structure ModelResult where
  segments : List Segment
  globalModel : RegModel
  normalDays : List ClassifiedDay
deriving DecidableEq, Repr

/-- Step 4, `buildModel` (`analyze-hvac.js:461-582`), with its in-place
enrichment made explicit: the first component is the classified-day list
after the mutation, the second the model result (`none` is the source's
`return null` when fewer than 10 normal days are available). -/
def buildModel (days : List ClassifiedDay) :
    List ClassifiedDay × Option ModelResult :=
  let nd0 := days.filter isModelDay
  if nd0.length < 10 then (days, none)
  else
    let nd := enrichList nd0
    (writeBack days, some ⟨segmentsOf nd, selectGlobal nd, nd⟩)

/-- Segment-model prediction (`analyze-hvac.js:683`):
`a * tempMin + b * (windMax || 0) + c`. -/
def predictSeg (m : RegModel) (d : ClassifiedDay) : ℚ :=
  m.a * d.tempMin.getD 0 + m.b * jsOr d.windMax 0 + m.c

/-- One conditional term of the global prediction
(`if (c.f !== undefined) predicted += c.f * x`). -/
def addTerm (cs : List (FeatName × ℚ)) (f : FeatName) (x : ℚ) : ℚ :=
  match coeffLookup cs f with
  | some v => v * x
  | none => 0

/-- Global-model prediction (`analyze-hvac.js:686-697`): the intercept plus
one term per coefficient present in the selected model. -/
def predictGlobal (g : RegModel) (d : ClassifiedDay) : ℚ :=
  let cs := g.coefficients
  jsOr (coeffLookup cs .intercept) 0
    + addTerm cs .tempMin (d.tempMin.getD 0)
    + addTerm cs .hdd (d.heatingDegreeDays.getD 0)
    + addTerm cs .windMax (jsOr d.windMax 0)
    + addTerm cs .windGustMax (jsOr d.windGustMax 0)
    + addTerm cs .thermalMassLag (jsOr d.thermalMassLag (d.tempMean.getD 0))
    + addTerm cs .priorDayTempMin (jsOr d.priorDayTempMin (d.tempMin.getD 0))
    + addTerm cs .isWeekend (jsOr d.isWeekend 0)

/-- `predictConsumption` (`analyze-hvac.js:678-698`): the first segment whose
filter matches and whose model has `rSquared > 0` predicts with the
two-feature segment formula; otherwise the selected global model is used. -/
def predictConsumption (mr : ModelResult) (d : ClassifiedDay) : ℚ :=
  match mr.segments.find? (fun seg => segFilter seg.kind d && 0 < seg.model.rSquared) with
  | some seg => predictSeg seg.model d
  | none => predictGlobal mr.globalModel d

/-- Anomaly direction (`HIGH` when the signed z-score is positive, `LOW`
otherwise, `analyze-hvac.js:730`). -/
inductive Direction
  | HIGH
  | LOW
deriving DecidableEq, Repr

/-- The z-score computation of `analyze-hvac.js:726`, including its guard:
`stdRes > 0 ? (residual - mean) / stdRes : 0`. -/
def zScoreCalc (m sd r : ℚ) : ℚ := if 0 < sd then (r - m) / sd else 0

/-- The anomaly test of `analyze-hvac.js:729`: `Math.abs(zScore) > 1.5`. -/
def anomFlag (z : ℚ) : Bool := 3 / 2 < |z|

/-- The direction rule of `analyze-hvac.js:730`: `zScore > 0 ? HIGH : LOW`. -/
def anomDir (z : ℚ) : Direction := if 0 < z then .HIGH else .LOW

/-- The residuals of the model days (`analyze-hvac.js:712-718`):
`adjustedKwh - predictConsumption(model, day)` in filter order. -/
def residualsOf (days : List ClassifiedDay) (mr : ModelResult) : List ℚ :=
  (days.filter isModelDay).map fun d => d.adjustedKwh - predictConsumption mr d

/-- The in-place enrichment `detectAnomalies` performs on one model day
(`analyze-hvac.js:712-727`): expected consumption, residual, and z-score. -/
def anomUpdate (mr : ModelResult) (m sd : ℚ) (d : ClassifiedDay) :
    ClassifiedDay :=
  let expected := predictConsumption mr d
  let residual := d.adjustedKwh - expected
  { d with
    expectedKwh := some expected
    residualKwh := some residual
    zScore := some (zScoreCalc m sd residual) }

/-- The z-score stored on an (updated) day, as the anomaly loop reads it. -/
def zScoreOfD (d : ClassifiedDay) : ℚ := d.zScore.getD 0

/-- One pushed anomaly record: the (mutated) day spread into a new object
together with its direction (`analyze-hvac.js:731`). -/
structure AnomalyRec where
  day : ClassifiedDay
  direction : Direction
deriving DecidableEq, Repr

/-- The anomaly detector's output: the classified-day list after its in-place
enrichment, the anomaly list, and the residual statistics. -/
structure AnomResult where
  days : List ClassifiedDay
  anomalies : List AnomalyRec
  resMean : ℚ
  resStd : ℚ
deriving DecidableEq, Repr

/-- Step 5, `detectAnomalies` (`analyze-hvac.js:704-738`).  `sd` is
`Math.sqrt` of `varQ (residualsOf days mr)` (see the header note); every
model day gets its expected/residual/z-score fields written, and the days
whose |z-score| exceeds 1.5 are pushed onto the anomaly list with their
direction. -/
def detectAnomalies (days : List ClassifiedDay) (mr : ModelResult) (sd : ℚ) :
    AnomResult :=
  let m := meanQ (residualsOf days mr)
  let upd := anomUpdate mr m sd
  { days := days.map fun d => if isModelDay d then upd d else d
    anomalies :=
      (((days.filter isModelDay).map upd).filter fun d => anomFlag (zScoreOfD d)).map
        fun d => ⟨d, anomDir (zScoreOfD d)⟩
    resMean := m
    resStd := sd }

/-- The non-heating baseload derivation from the eco-mode (low-setpoint)
subset of the out-of-town days (`analyze-hvac.js:889-906`): with at least
two eco-mode days, the average consumption of the two lowest-consumption
ones (an ascending sort followed by `slice(0, 2)`); with exactly one, its
consumption; with none, the fixed fallback of 12 kWh. -/
def baseloadFrom (ecoModeDays : List ClassifiedDay) : ℚ :=
  if 2 ≤ ecoModeDays.length then
    let sorted := ecoModeDays.mergeSort fun x y => x.homeKwh ≤ y.homeKwh
    let selectedDays := sorted.take 2
    selectedDays.foldl (fun a d => a + d.homeKwh) 0 / (selectedDays.length : ℚ)
  else if 0 < ecoModeDays.length then
    (ecoModeDays.map (·.homeKwh)).foldl min
      ((ecoModeDays.map (·.homeKwh)).headD 0)
  else 12

/-- A known-sauna day (its date in the `history.json` sauna set) whose total
consumption, 10 kWh, is below the a-priori 25 kWh sauna estimate. -/
def c1raw : TeslaDaily := { date := 7, homeEnergy := 10000 }

/-- A plain normal day used to exercise the classification invariant. -/
def c1wraw : TeslaDaily := { date := 3, homeEnergy := 60000 }

/-- Classified form of `c1wraw` (a one-day run of the classifier). -/
def c1wDays : List ClassifiedDay := classifyDays [c1wraw] [] []

/-- Ten identical-temperature input days for the model builder: every one is
normal, consumes 30 kWh, and has `tempMin = 10` (Cold bucket) and
`tempMean = 50`, so every feature set's design matrix has a column collinear
with the intercept and every normal-equations system is singular. -/
def c3raws : List TeslaDaily :=
  (List.range 10).map fun k => { date := k, homeEnergy := 30000 }

/-- Weather for the ten days: constant temperatures, varying wind. -/
def c3weather : List Weather :=
  (List.range 10).map fun k =>
    { date := k, tempMax := 60, tempMin := 10, tempMean := 50,
      windMax := (k : ℚ), windGustMax := (k : ℚ) }

/-- The ten classified days of the singular-fit scenario. -/
def c3days : List ClassifiedDay := classifyDays c3raws c3weather []

/-- The enriched normal-day sample of the singular-fit scenario. -/
def c3nd : List ClassifiedDay := enrichList (c3days.filter isModelDay)

/-- A day of the singular-fit scenario (it matches the Cold segment). -/
def c3testDay : ClassifiedDay := c3nd.headD { date := 0 }

/-- An empty model result (no segments, degenerate global model). -/
def dummyMR : ModelResult := ⟨[], degenerateFit, []⟩

/-- The model result the builder produces on the singular-fit scenario. -/
def c3mr : ModelResult := ((buildModel c3days).2).getD dummyMR

/-- A 15-interval sub-daily series: two low intervals, then 12 consecutive
intervals each above the 1000 Wh high-power threshold summing to 13000 Wh,
then one low interval. -/
def c5series : List TsEntry :=
  [⟨0, 500, 0⟩, ⟨1, 800, 0⟩,
   ⟨2, 1085, 0⟩, ⟨3, 1085, 0⟩, ⟨4, 1083, 0⟩, ⟨5, 1083, 0⟩,
   ⟨6, 1083, 0⟩, ⟨7, 1083, 0⟩, ⟨8, 1083, 0⟩, ⟨9, 1083, 0⟩,
   ⟨10, 1083, 0⟩, ⟨11, 1083, 0⟩, ⟨12, 1083, 0⟩, ⟨13, 1083, 0⟩,
   ⟨14, 300, 0⟩]

/-- A candidate normal day for the sauna refinement (60 kWh, adjusted equal
to home consumption as the classifier leaves it on normal days). -/
def c5day : ClassifiedDay :=
  { date := 5, type := .normal, homeKwh := 60, adjustedKwh := 60,
    tempMin := some 10 }

/-- A day whose weather mean temperature is exactly 0 °F. -/
def c6raw : TeslaDaily := { date := 0 }

/-- Weather record with `tempMean = 0`. -/
def c6weather : Weather := { date := 0 }

/-- The classified form of the 0 °F day. -/
def c6cd : ClassifiedDay := (classifyDays [c6raw] [c6weather] []).headD { date := 0 }

/-- Eco-mode day consuming 11.5 kWh. -/
def ecoA : ClassifiedDay := { date := 20436, type := .outOfTown, homeKwh := 23 / 2 }

/-- Eco-mode day consuming 11.7 kWh. -/
def ecoB : ClassifiedDay := { date := 20437, type := .outOfTown, homeKwh := 117 / 10 }

/-- A day with `tempMin` exactly 20.0 °F (the Cold/Moderate boundary). -/
def day20 : ClassifiedDay := { date := 3, tempMin := some 20 }

/-- A single normal model day with 20 kWh adjusted consumption (with a model
that predicts 0, its residual is 20 and the one-element residual sample has
variance 0). -/
def d10 : ClassifiedDay :=
  { date := 1, type := .normal, homeKwh := 20, adjustedKwh := 20,
    tempMin := some 10 }

/-- A second normal model day with 40 kWh adjusted consumption. -/
def d11 : ClassifiedDay :=
  { date := 2, type := .normal, homeKwh := 40, adjustedKwh := 40,
    tempMin := some 10 }

/-- The fields of a classified day that exist before the model builder runs
(everything the classifier and the sauna refinement write). -/
structure CoreFields where
  date : Nat
  type : DayType
  homeKwh : ℚ
  solarKwh : ℚ
  gridImportKwh : ℚ
  gridExportKwh : ℚ
  batteryChargedKwh : ℚ
  batteryDischargedKwh : ℚ
  saunaEstimateKwh : ℚ
  adjustedKwh : ℚ
  tempMax : Option ℚ
  tempMin : Option ℚ
  tempMean : Option ℚ
  windMax : Option ℚ
  windGustMax : Option ℚ
  hdd : ℚ
  saunaDetected : Bool
deriving DecidableEq, Repr

/-- Projection of a classified day onto its pre-model-builder fields. -/
def coreFields (d : ClassifiedDay) : CoreFields :=
  ⟨d.date, d.type, d.homeKwh, d.solarKwh, d.gridImportKwh, d.gridExportKwh,
   d.batteryChargedKwh, d.batteryDischargedKwh, d.saunaEstimateKwh,
   d.adjustedKwh, d.tempMax, d.tempMin, d.tempMean, d.windMax, d.windGustMax,
   d.hdd, d.saunaDetected⟩

theorem classifyDay_adj (wd : List Weather) (hist : List Nat) (raw : TeslaDaily) :
    (classifyDay wd hist raw).adjustedKwh
      = (classifyDay wd hist raw).homeKwh - (classifyDay wd hist raw).saunaEstimateKwh := rfl

theorem refineDay_adj (s : List TsEntry) (d : ClassifiedDay)
    (h : d.adjustedKwh = d.homeKwh - d.saunaEstimateKwh) :
    (refineDay s d).adjustedKwh
      = (refineDay s d).homeKwh - (refineDay s d).saunaEstimateKwh := by
  simp only [refineDay]
  split
  · rfl
  · exact h

theorem updateFirst_forall (P : α → Prop) (p : α → Bool) (f : α → α)
    (hf : ∀ x, P x → P (f x)) :
    ∀ l : List α, (∀ x ∈ l, P x) → ∀ x ∈ updateFirst p f l, P x := by
  intro l
  induction l with
  | nil => intro _ x hx; simp [updateFirst] at hx
  | cons a as ih =>
    intro h x hx
    rw [updateFirst] at hx
    by_cases hpa : p a
    · rw [if_pos hpa] at hx
      rcases List.mem_cons.mp hx with rfl | hx
      · exact hf a (h a (List.mem_cons_self a as))
      · exact h x (List.mem_cons_of_mem _ hx)
    · rw [if_neg hpa] at hx
      rcases List.mem_cons.mp hx with rfl | hx
      · exact h x (List.mem_cons_self x as)
      · exact ih (fun y hy => h y (List.mem_cons_of_mem _ hy)) x hx

theorem foldl_updateFirst_pres (P : ClassifiedDay → Prop)
    (hP : ∀ s d, P d → P (refineDay s d)) (series : Nat → List TsEntry) :
    ∀ (suspects days : List ClassifiedDay),
      (∀ d ∈ days, P d) →
      ∀ d ∈ suspects.foldl
          (fun ds suspect =>
            updateFirst (fun x => x.date = suspect.date)
              (refineDay (series suspect.date)) ds)
          days, P d := by
  intro suspects
  induction suspects with
  | nil => intro days h; simpa using h
  | cons s ss ih =>
    intro days h
    simp only [List.foldl_cons]
    exact ih _ (updateFirst_forall P _ _ (fun x hx => hP _ x hx) days h)

theorem detectSauna_pres (P : ClassifiedDay → Prop)
    (hP : ∀ s d, P d → P (refineDay s d))
    (days : List ClassifiedDay) (series : Nat → List TsEntry) (sd : ℚ)
    (h : ∀ d ∈ days, P d) :
    ∀ d ∈ detectSaunaFromTesla days series sd, P d := by
  simp only [detectSaunaFromTesla]
  split
  · exact h
  · exact foldl_updateFirst_pres P hP series _ days h

/-- C1 (amended): after initial classification and after the signal-pattern
(sauna) refinement, `adjustedKwh = homeKwh − saunaEstimateKwh` holds for
every day, and `adjustedKwh ≥ 0` holds whenever the estimated confounding
load does not exceed the day's consumption; the nonnegativity is not
enforced in general (see the counterexample). -/
theorem c1_adjusted_consistency :
    (∀ (td : List TeslaDaily) (wd : List Weather) (hist : List Nat),
       ∀ d ∈ classifyDays td wd hist,
         d.adjustedKwh = d.homeKwh - d.saunaEstimateKwh)
    ∧ (∀ (days : List ClassifiedDay) (series : Nat → List TsEntry) (sd : ℚ),
        (∀ d ∈ days, d.adjustedKwh = d.homeKwh - d.saunaEstimateKwh) →
        ∀ d ∈ detectSaunaFromTesla days series sd,
          d.adjustedKwh = d.homeKwh - d.saunaEstimateKwh)
    ∧ (∀ d : ClassifiedDay, d.adjustedKwh = d.homeKwh - d.saunaEstimateKwh →
        d.saunaEstimateKwh ≤ d.homeKwh → 0 ≤ d.adjustedKwh) := by
  refine ⟨?_, ?_, ?_⟩
  · intro td wd hist d hd
    simp only [classifyDays, List.mem_map] at hd
    obtain ⟨raw, _, rfl⟩ := hd
    exact classifyDay_adj wd hist raw
  · intro days series sd h
    exact detectSauna_pres _ (fun s d hd => refineDay_adj s d hd) days series sd h
  · intro d h1 h2
    rw [h1]
    linarith

/-- C1 counterexample: a known-sauna day consuming 10 kWh receives the
a-priori 25 kWh sauna estimate and ends with `adjustedKwh = −15 < 0`, so the
claimed invariant `adjustedKwh ≥ 0` fails on the code. -/
theorem c1_counterexample :
    (classifyDays [c1raw] [] [7]).map (·.adjustedKwh) = [-15]
    ∧ (classifyDays [c1raw] [] [7]).map (·.saunaEstimateKwh) = [25]
    ∧ (classifyDays [c1raw] [] [7]).map (·.homeKwh) = [10]
    ∧ ¬ (0 : ℚ) ≤ -15 := by with_unfolding_all decide

/-- Witness for C1: a concrete classified day keeps the adjusted-consumption
identity through the sauna refinement, and its adjusted consumption is
nonnegative. -/
theorem c1_witness :
    (∀ d ∈ c1wDays, d.adjustedKwh = d.homeKwh - d.saunaEstimateKwh)
    ∧ (∀ d ∈ detectSaunaFromTesla c1wDays (fun _ => []) 0,
        d.adjustedKwh = d.homeKwh - d.saunaEstimateKwh)
    ∧ 0 ≤ (c1wDays.headD { date := 0 }).adjustedKwh := by
  have h : ∀ d ∈ c1wDays, d.adjustedKwh = d.homeKwh - d.saunaEstimateKwh := by
    with_unfolding_all decide
  refine ⟨h, c1_adjusted_consistency.2.1 c1wDays (fun _ => []) 0 h, ?_⟩
  exact c1_adjusted_consistency.2.2 (c1wDays.headD { date := 0 })
    (by with_unfolding_all decide) (by with_unfolding_all decide)

theorem headD_mergeSort_max {α : Type} (key : α → ℚ) (l : List α) (dflt : α) :
    ∀ x ∈ l, key x ≤ key ((l.mergeSort fun a b => key b ≤ key a).headD dflt) := by
  intro x hx
  have hperm : (l.mergeSort fun a b => key b ≤ key a).Perm l :=
    List.mergeSort_perm l _
  have hsorted : List.Pairwise (fun a b => decide (key b ≤ key a) = true)
      (l.mergeSort fun a b => key b ≤ key a) :=
    List.sorted_mergeSort
      (fun a b c h1 h2 => by
        simp only [decide_eq_true_eq] at h1 h2 ⊢
        exact le_trans h2 h1)
      (fun a b => by
        simp only [Bool.or_eq_true, decide_eq_true_eq]
        exact le_total _ _)
      l
  have hx' : x ∈ l.mergeSort fun a b => key b ≤ key a := hperm.mem_iff.mpr hx
  have hne : l.mergeSort (fun a b => key b ≤ key a) ≠ [] := by
    intro h0
    rw [h0] at hx'
    simp at hx'
  obtain ⟨hh, tt, hms⟩ := List.exists_cons_of_ne_nil hne
  rw [hms] at hx' hsorted ⊢
  simp only [List.headD_cons]
  rcases List.mem_cons.mp hx' with rfl | hmem
  · exact le_refl _
  · exact of_decide_eq_true ((List.pairwise_cons.mp hsorted).1 x hmem)

/-- C2: whenever the model builder returns a result, the selected global
model's R² is at least as large as the R² of each of the five competing
feature-set candidates fitted on the same normal-day sample. -/
theorem c2_selection_monotonic (days : List ClassifiedDay) (mr : ModelResult)
    (h : (buildModel days).2 = some mr) :
    ∀ m ∈ [fitLinearRegression mr.normalDays basicFeatures,
           fitLinearRegression mr.normalDays extendedFeatures,
           fitLinearRegression mr.normalDays hddFeatures,
           fitLinearRegression mr.normalDays priorDayFeatures,
           fitLinearRegression mr.normalDays weekendFeatures],
      m.rSquared ≤ mr.globalModel.rSquared := by
  simp only [buildModel] at h
  split at h
  · simp at h
  · simp only [Option.some.injEq] at h
    subst h
    intro m hm
    exact headD_mergeSort_max RegModel.rSquared (globalCandidates _) degenerateFit m hm

/-- Witness for C2: on a concrete ten-day input the builder returns a model,
and the selected global model's R² dominates all five candidates'. -/
theorem c2_witness :
    (buildModel c3days).2 = some c3mr
    ∧ ∀ m ∈ [fitLinearRegression c3mr.normalDays basicFeatures,
             fitLinearRegression c3mr.normalDays extendedFeatures,
             fitLinearRegression c3mr.normalDays hddFeatures,
             fitLinearRegression c3mr.normalDays priorDayFeatures,
             fitLinearRegression c3mr.normalDays weekendFeatures],
        m.rSquared ≤ c3mr.globalModel.rSquared := by
  have h : (buildModel c3days).2 = some c3mr := by
    set_option maxRecDepth 100000 in with_unfolding_all decide
  exact ⟨h, c2_selection_monotonic c3days c3mr h⟩

/-- C3 (amended): a singular normal-equations system makes
`fitLinearRegression` return the degenerate model (empty coefficients,
R² = 0); such a candidate still takes part in the global competition rather
than being excluded (see the counterexample, where it is even selected), and
a day whose every matching segment lacks a positive-R² model — in particular
a day matching a segment whose fit was singular — is predicted with the
selected global model, not with the segment's mean constant. -/
theorem c3_degenerate_policy :
    (∀ (days : List ClassifiedDay) (features : List FeatName),
        solveLinearSystem (normalXtX days features) (normalXty days features)
          (features.length + 1) = none →
        fitLinearRegression days features = degenerateFit)
    ∧ (∀ (mr : ModelResult) (d : ClassifiedDay),
        (∀ seg ∈ mr.segments,
          ¬(segFilter seg.kind d = true ∧ 0 < seg.model.rSquared)) →
        predictConsumption mr d = predictGlobal mr.globalModel d) := by
  constructor
  · intro days features hsing
    simp only [fitLinearRegression]
    split
    · rfl
    · rw [hsing]
  · intro mr d h
    simp only [predictConsumption]
    have hnone : mr.segments.find?
        (fun seg => segFilter seg.kind d && decide (0 < seg.model.rSquared)) = none := by
      rw [List.find?_eq_none]
      intro seg hseg
      have h2 := h seg hseg
      simp only [Bool.and_eq_true, decide_eq_true_eq]
      exact h2
    rw [hnone]

/-- C3 counterexample: on ten constant-temperature days every feature set's
normal equations are singular; the singular basic candidate is not excluded
from the competition — it is selected as the global model — and a day
matching the Cold segment (whose fit was singular, R² = 0) is predicted at
the global degenerate value 0, not at the segment's mean constant 30. -/
theorem c3_counterexample :
    solveLinearSystem (normalXtX c3nd basicFeatures) (normalXty c3nd basicFeatures) 3 = none
    ∧ (buildModel c3days).2.map (·.globalModel) = some degenerateFit
    ∧ (buildModel c3days).2.map (fun mr => mr.segments.map (·.model.rSquared)) = some [0, 0, 0, 0]
    ∧ segFilter .cold c3testDay = true
    ∧ (buildModel c3days).2.map (fun mr => predictConsumption mr c3testDay) = some 0
    ∧ (buildModel c3days).2.map (fun mr => mr.segments.map (fun s => segMean s.days)) = some [0, 0, 30, 0]
    ∧ (0 : ℚ) ≠ 30 := by
  set_option maxRecDepth 1000000 in with_unfolding_all decide

/-- Witness for C3: a concrete singular system (the HDD feature set over the
constant-temperature days) produces the degenerate fit, and a concrete day
with no positive-R² matching segment is predicted by the global model. -/
theorem c3_witness :
    solveLinearSystem (normalXtX c3nd hddFeatures) (normalXty c3nd hddFeatures)
        (hddFeatures.length + 1) = none
    ∧ fitLinearRegression c3nd hddFeatures = degenerateFit
    ∧ (∀ seg ∈ c3mr.segments,
        ¬(segFilter seg.kind c3testDay = true ∧ 0 < seg.model.rSquared))
    ∧ predictConsumption c3mr c3testDay = predictGlobal c3mr.globalModel c3testDay := by
  have h1 : solveLinearSystem (normalXtX c3nd hddFeatures) (normalXty c3nd hddFeatures)
      (hddFeatures.length + 1) = none := by
    set_option maxRecDepth 1000000 in with_unfolding_all decide
  have h2 : ∀ seg ∈ c3mr.segments,
      ¬(segFilter seg.kind c3testDay = true ∧ 0 < seg.model.rSquared) := by
    set_option maxRecDepth 1000000 in with_unfolding_all decide
  exact ⟨h1, c3_degenerate_policy.1 c3nd hddFeatures h1,
    h2, c3_degenerate_policy.2 c3mr c3testDay h2⟩

/-- C4: with a positive residual standard deviation, the anomaly list
consists of exactly the processed normal days with
`|residual − residualMean| / residualStddev > 1.5`, with direction `HIGH`
exactly when the signed deviation (equivalently the z-score) is positive and
`LOW` otherwise; in particular, with residual mean 0 and stddev 5, a
residual of 9.0 gives z-score 1.8 and is flagged `HIGH`, and a residual of
−4.0 gives z-score −0.8 and is not flagged. -/
theorem c4_anomaly_rule :
    (∀ (days : List ClassifiedDay) (mr : ModelResult) (sd : ℚ), 0 < sd →
      (detectAnomalies days mr sd).anomalies =
        ((((days.filter isModelDay).map
              (anomUpdate mr (meanQ (residualsOf days mr)) sd)).filter fun d =>
            3 / 2 < |d.residualKwh.getD 0 - meanQ (residualsOf days mr)| / sd).map
          fun d =>
            ⟨d, if 0 < d.residualKwh.getD 0 - meanQ (residualsOf days mr)
                then .HIGH else .LOW⟩))
    ∧ zScoreCalc 0 5 9 = 9 / 5
    ∧ anomFlag (zScoreCalc 0 5 9) = true
    ∧ anomDir (zScoreCalc 0 5 9) = .HIGH
    ∧ zScoreCalc 0 5 (-4) = -(4 / 5)
    ∧ anomFlag (zScoreCalc 0 5 (-4)) = false := by
  refine ⟨?_, ?_, ?_, ?_, ?_, ?_⟩
  · intro days mr sd hsd
    simp only [detectAnomalies]
    have hfil : ((days.filter isModelDay).map
          (anomUpdate mr (meanQ (residualsOf days mr)) sd)).filter
            (fun d => anomFlag (zScoreOfD d))
        = ((days.filter isModelDay).map
            (anomUpdate mr (meanQ (residualsOf days mr)) sd)).filter
            (fun d => decide
              (3 / 2 < |d.residualKwh.getD 0 - meanQ (residualsOf days mr)| / sd)) := by
      apply List.filter_congr
      intro x hx
      obtain ⟨d0, _, rfl⟩ := List.mem_map.mp hx
      simp only [anomUpdate, zScoreOfD, zScoreCalc, anomFlag, Option.getD_some]
      simp only [hsd, if_true, abs_div, abs_of_pos hsd]
    rw [hfil]
    apply List.map_congr_left
    intro x hx
    obtain ⟨d0, _, rfl⟩ := List.mem_map.mp (List.mem_filter.mp hx).1
    simp only [anomUpdate, zScoreOfD, anomDir, zScoreCalc, Option.getD_some]
    simp only [hsd, if_true]
    congr 1
    exact if_congr (div_pos_iff_of_pos_right hsd) rfl rfl
  · with_unfolding_all decide
  · with_unfolding_all decide
  · with_unfolding_all decide
  · with_unfolding_all decide
  · with_unfolding_all decide

/-- Witness for C4: the flag rule instantiated on a concrete two-day run
with residual standard deviation 5. -/
theorem c4_witness :
    (0 : ℚ) < 5
    ∧ (detectAnomalies [d10, d11] dummyMR 5).anomalies =
        (((([d10, d11].filter isModelDay).map
              (anomUpdate dummyMR (meanQ (residualsOf [d10, d11] dummyMR)) 5)).filter
            fun d =>
              3 / 2 < |d.residualKwh.getD 0 - meanQ (residualsOf [d10, d11] dummyMR)| / 5).map
          fun d =>
            ⟨d, if 0 < d.residualKwh.getD 0 - meanQ (residualsOf [d10, d11] dummyMR)
                then .HIGH else .LOW⟩) := by
  have h : (0 : ℚ) < 5 := by norm_num
  exact ⟨h, c4_anomaly_rule.1 [d10, d11] dummyMR 5 h⟩

/-- C5: a candidate day whose series' longest high-power run (as computed by
`findConsecutiveRuns` over the intervals above the 1000 Wh threshold) has
exactly 12 intervals summing to 13000 Wh meets the minimum run length 10,
so the refinement reclassifies it as a sauna (high-load) day, sets the
confounding estimate to 13.0 kWh, and lowers `adjustedKwh` by exactly 13.0
from its pre-refinement value. -/
theorem c5_sauna_reclassification (s : List TsEntry) (d : ClassifiedDay)
    (hrun : findConsecutiveRuns (s.filter fun e => 1000 < e.home_energy) s
      = ⟨12, 13000⟩)
    (hadj : d.adjustedKwh = d.homeKwh) :
    (refineDay s d).type = .sauna
    ∧ (refineDay s d).saunaEstimateKwh = 13
    ∧ (refineDay s d).adjustedKwh = d.adjustedKwh - 13 := by
  have h12 : refineDay s d =
      { d with
        type := .sauna
        saunaEstimateKwh := (13000 : ℚ) / 1000
        adjustedKwh := d.homeKwh - (13000 : ℚ) / 1000
        saunaDetected := true } := by
    simp only [refineDay, hrun]
    norm_num
  rw [h12]
  refine ⟨rfl, by norm_num, ?_⟩
  rw [← hadj]
  norm_num

/-- Witness for C5: a concrete 15-interval series with a unique 12-interval
high-power run summing to 13000 Wh reclassifies a concrete 60 kWh normal
day, with `adjustedKwh` dropping from 60 to 47. -/
theorem c5_witness :
    findConsecutiveRuns (c5series.filter fun e => 1000 < e.home_energy) c5series
      = ⟨12, 13000⟩
    ∧ c5day.adjustedKwh = c5day.homeKwh
    ∧ (refineDay c5series c5day).type = .sauna
    ∧ (refineDay c5series c5day).saunaEstimateKwh = 13
    ∧ (refineDay c5series c5day).adjustedKwh = c5day.adjustedKwh - 13 := by
  have h1 : findConsecutiveRuns (c5series.filter fun e => 1000 < e.home_energy) c5series
      = ⟨12, 13000⟩ := by
    norm_num [findConsecutiveRuns, c5series, List.filter, List.foldl]
  have h2 : c5day.adjustedKwh = c5day.homeKwh := by with_unfolding_all decide
  obtain ⟨a, b, c⟩ := c5_sauna_reclassification c5series c5day h1 h2
  exact ⟨h1, h2, a, b, c⟩

/-- C6 (code bug): for a day whose weather reports `tempMean = 0` °F, the
classifier's `hdd` field is `max(0, 65 − (tempMean || 50)) = 15` because the
JS `||` treats the legitimate reading 0 as missing, while the heating
degree-day formula of the spec (and the model builder's own
`heatingDegreeDays` enrichment, computed without the `||` default) gives
`max(0, 65 − 0) = 65`. -/
theorem c6_hdd_zero_tempMean :
    (classifyDays [c6raw] [c6weather] []).map (·.hdd) = [15]
    ∧ c6weather.tempMean = 0
    ∧ max 0 (65 - c6weather.tempMean) = (65 : ℚ)
    ∧ (enrichDay [c6cd] 0 c6cd).heatingDegreeDays = some 65
    ∧ (15 : ℚ) ≠ 65 := by
  with_unfolding_all decide

/-- C7: with at least two eco-mode (low-setpoint) out-of-town days, the
derived baseload is the arithmetic mean of the two lowest-consumption ones:
there is an ascending reordering of the eco-day consumption values whose
first two entries average to `baseloadFrom`. -/
theorem c7_baseload_two_lowest (eco : List ClassifiedDay) (h : 2 ≤ eco.length) :
    ∃ l : List ℚ, l.Perm (eco.map (·.homeKwh)) ∧ l.Sorted (· ≤ ·)
      ∧ baseloadFrom eco = (l.getD 0 0 + l.getD 1 0) / 2 := by
  have hperm : (eco.mergeSort fun x y => x.homeKwh ≤ y.homeKwh).Perm eco :=
    List.mergeSort_perm eco _
  have hsorted : List.Pairwise (fun a b => decide (a.homeKwh ≤ b.homeKwh) = true)
      (eco.mergeSort fun x y => x.homeKwh ≤ y.homeKwh) :=
    List.sorted_mergeSort
      (fun a b c h1 h2 => by
        simp only [decide_eq_true_eq] at h1 h2 ⊢
        exact le_trans h1 h2)
      (fun a b => by
        simp only [Bool.or_eq_true, decide_eq_true_eq]
        exact le_total _ _)
      eco
  have hlen : 2 ≤ (eco.mergeSort fun x y => x.homeKwh ≤ y.homeKwh).length := by
    rw [hperm.length_eq]
    exact h
  rcases hms : eco.mergeSort fun x y => x.homeKwh ≤ y.homeKwh with _ | ⟨a, _ | ⟨b, t⟩⟩
  · rw [hms] at hlen
    simp at hlen
  · rw [hms] at hlen
    simp at hlen
  · rw [hms] at hperm hsorted
    refine ⟨(a :: b :: t).map (·.homeKwh), hperm.map _, ?_, ?_⟩
    · rw [List.Sorted, List.pairwise_map]
      exact hsorted.imp (fun hab => of_decide_eq_true hab)
    · simp only [baseloadFrom]
      rw [if_pos h, hms]
      simp [List.foldl]

/-- Witness for C7: two eco-mode days with totals 11.5 and 11.7 kWh give a
baseload of 11.6 kWh (58/5). -/
theorem c7_witness :
    2 ≤ ([ecoA, ecoB] : List ClassifiedDay).length
    ∧ (∃ l : List ℚ, l.Perm ([ecoA, ecoB].map (·.homeKwh)) ∧ l.Sorted (· ≤ ·)
        ∧ baseloadFrom [ecoA, ecoB] = (l.getD 0 0 + l.getD 1 0) / 2)
    ∧ baseloadFrom [ecoA, ecoB] = 58 / 5 := by
  refine ⟨by decide, c7_baseload_two_lowest [ecoA, ecoB] (by decide), ?_⟩
  with_unfolding_all decide

/-- C8: segment assignment is exact at the bucket boundaries — a day with
`tempMin = 20.0` satisfies the Cold filter (`> 5` and `≤ 20`) and not the
adjacent Moderate filter (`> 20` and `≤ 32`) — the four segment filters are
pairwise exclusive on every day, and a day collected into two segments'
day lists must be in the same segment. -/
theorem c8_segment_boundary :
    segFilter .cold day20 = true
    ∧ segFilter .moderate day20 = false
    ∧ (∀ d : ClassifiedDay, (segKinds.filter fun k => segFilter k d).length ≤ 1)
    ∧ (∀ (nd : List ClassifiedDay) (d : ClassifiedDay) (k k' : SegKind),
        d ∈ segDays k nd → d ∈ segDays k' nd → k = k') := by
  refine ⟨by with_unfolding_all decide, by with_unfolding_all decide, ?_, ?_⟩
  · intro d
    rcases hd : d.tempMin with _ | t
    · simp [segKinds, segFilter, oGt, oLe, hd, List.filter]
    · rcases le_or_lt t 5 with h5 | h5
      · have h20 : ¬ (20 : ℚ) < t := by linarith
        have h32 : ¬ (32 : ℚ) < t := by linarith
        have h5' : ¬ (5 : ℚ) < t := not_lt.mpr h5
        simp [segKinds, segFilter, oGt, oLe, hd, List.filter, h5, h20, h32, h5']
      · rcases le_or_lt t 20 with h20 | h20
        · have h32 : ¬ (32 : ℚ) < t := by linarith
          have h5'' : ¬ t ≤ 5 := not_le.mpr h5
          have h20n : ¬ (20 : ℚ) < t := not_lt.mpr h20
          simp [segKinds, segFilter, oGt, oLe, hd, List.filter, h5, h20, h32, h5'', h20n]
        · rcases le_or_lt t 32 with h32 | h32
          · have h5'' : ¬ t ≤ 5 := by linarith
            have h20' : ¬ t ≤ 20 := not_le.mpr h20
            have h32n : ¬ (32 : ℚ) < t := not_lt.mpr h32
            simp [segKinds, segFilter, oGt, oLe, hd, List.filter, h5, h20, h32, h5'', h20', h32n]
          · have h5'' : ¬ t ≤ 5 := by linarith
            have h20' : ¬ t ≤ 20 := by linarith
            have h32' : ¬ t ≤ 32 := not_le.mpr h32
            simp [segKinds, segFilter, oGt, oLe, hd, List.filter, h32, h5'', h20', h32']
  · intro nd d k k' hk hk'
    have h1 := (List.mem_filter.mp hk).2
    have h2 := (List.mem_filter.mp hk').2
    rw [decide_eq_true_eq] at h1 h2
    rw [h1] at h2
    exact Option.some.inj h2

/-- Witness for C8: the boundary day is in the Cold segment's day list, and
membership in two segments' lists forces the same segment. -/
theorem c8_witness :
    day20 ∈ segDays .cold [day20]
    ∧ SegKind.cold = SegKind.cold
    ∧ (segKinds.filter fun k => segFilter k day20).length ≤ 1 := by
  have h : day20 ∈ segDays .cold [day20] := by with_unfolding_all decide
  exact ⟨h, c8_segment_boundary.2.2.2 [day20] day20 .cold .cold h h,
    c8_segment_boundary.2.2.1 day20⟩

theorem coreFields_enrichDay (nl : List ClassifiedDay) (i : Nat) (d : ClassifiedDay) :
    coreFields (enrichDay nl i d) = coreFields d := rfl

theorem coreFields_anomUpdate (mr : ModelResult) (m sd : ℚ) (d : ClassifiedDay) :
    coreFields (anomUpdate mr m sd d) = coreFields d := rfl

theorem map_coreFields_enumFrom_map (g : Nat × ClassifiedDay → ClassifiedDay)
    (hg : ∀ kd, coreFields (g kd) = coreFields kd.2) :
    ∀ (n : Nat) (l : List ClassifiedDay),
      ((List.enumFrom n l).map g).map coreFields = l.map coreFields := by
  intro n l
  induction l generalizing n with
  | nil => rfl
  | cons a as ih =>
    simp only [List.enumFrom, List.map_cons]
    rw [hg ⟨n, a⟩, ih (n + 1)]

/-- C9 (amended): the model builder and the anomaly detector do mutate the
classified-day records in place — they bolt derived fields onto them (the
feature enrichment; expected/residual/z-score), so the day list they pass on
is not equal to their input (see the counterexample) — but they leave every
previously-written field of every record unchanged: the lists agree
projected onto the pre-model-builder fields.  Their analysis outputs (the
model result and the anomaly list) are separate new collections. -/
theorem c9_stage_frame :
    (∀ days : List ClassifiedDay,
        (buildModel days).1.map coreFields = days.map coreFields)
    ∧ (∀ (days : List ClassifiedDay) (mr : ModelResult) (sd : ℚ),
        (detectAnomalies days mr sd).days.map coreFields = days.map coreFields) := by
  constructor
  · intro days
    simp only [buildModel]
    split
    · rfl
    · show (writeBack days).map coreFields = days.map coreFields
      simp only [writeBack]
      exact map_coreFields_enumFrom_map _
        (fun kd => by
          by_cases hm : isModelDay kd.2
          · simp [hm, coreFields_enrichDay]
          · simp [hm])
        0 days
  · intro days mr sd
    simp only [detectAnomalies]
    rw [List.map_map]
    apply List.map_congr_left
    intro d _
    by_cases hm : isModelDay d
    · simp [hm, Function.comp, coreFields_anomUpdate]
    · simp [hm, Function.comp]

/-- C9 counterexample: on a concrete ten-normal-day input, model fitting
changes the classified-day records (the enrichment fields appear), and
anomaly detection changes them again (expected/residual/z-score appear), so
neither stage leaves the prior stage's records unchanged. -/
theorem c9_counterexample :
    (buildModel c3days).1 ≠ c3days
    ∧ (detectAnomalies (buildModel c3days).1 c3mr 0).days ≠ (buildModel c3days).1 := by
  constructor
  · set_option maxRecDepth 1000000 in with_unfolding_all decide
  · set_option maxRecDepth 1000000 in with_unfolding_all decide

/-- C10: when the residual sample's variance is zero — equivalently, when
the residual standard deviation (any `sd` with `sd * sd` equal to that
variance) is zero — the guarded z-score computation assigns every processed
day a z-score of 0 and the anomaly list is empty; no division by the zero
standard deviation occurs. -/
theorem c10_zero_stddev_guard (days : List ClassifiedDay) (mr : ModelResult) (sd : ℚ)
    (h1 : varQ (residualsOf days mr) = 0)
    (h2 : sd * sd = varQ (residualsOf days mr)) :
    (∀ d ∈ (detectAnomalies days mr sd).days, isModelDay d = true → d.zScore = some 0)
    ∧ (detectAnomalies days mr sd).anomalies = [] := by
  have hsd : sd = 0 := mul_self_eq_zero.mp (h2.trans h1)
  subst hsd
  constructor
  · intro d hd hmd
    simp only [detectAnomalies, List.mem_map] at hd
    obtain ⟨d0, hd0, rfl⟩ := hd
    by_cases hm : isModelDay d0
    · simp only [if_pos hm, anomUpdate, zScoreCalc]
      norm_num
    · rw [if_neg hm] at hmd
      exact absurd hmd hm
  · simp only [detectAnomalies]
    rw [List.map_eq_nil_iff, List.filter_eq_nil_iff]
    intro d hd
    obtain ⟨d0, _, rfl⟩ := List.mem_map.mp hd
    simp [anomUpdate, zScoreOfD, zScoreCalc, anomFlag]
    norm_num

/-- Witness for C10: a one-day run has a constant residual sample (variance
0); with standard deviation 0 the z-score is stored as 0 and nothing is
flagged. -/
theorem c10_witness :
    varQ (residualsOf [d10] dummyMR) = 0
    ∧ (0 : ℚ) * 0 = varQ (residualsOf [d10] dummyMR)
    ∧ (∀ d ∈ (detectAnomalies [d10] dummyMR 0).days,
        isModelDay d = true → d.zScore = some 0)
    ∧ (detectAnomalies [d10] dummyMR 0).anomalies = [] := by
  have h1 : varQ (residualsOf [d10] dummyMR) = 0 := by with_unfolding_all decide
  have h2 : (0 : ℚ) * 0 = varQ (residualsOf [d10] dummyMR) := by
    with_unfolding_all decide
  obtain ⟨a, b⟩ := c10_zero_stddev_guard [d10] dummyMR 0 h1 h2
  exact ⟨h1, h2, a, b⟩
